import Mathlib

/-!
Shallow embedding of the dashboard cost-analysis pipelines
(dash_analysis.py and dash_cat_analysis.py).

Tabular cells that pandas may hold as NaN are modelled as `Option ℚ`
(`none` plays the role of NaN/undefined); numeric arithmetic on such
cells propagates `none`, mirroring IEEE NaN propagation, and list sums
skip `none`, mirroring pandas skipna sums.  String cells that may be
missing are `Option String`.  Each script is embedded in its own
namespace, translated from its own file.
-/

/-- Python str.strip on the cell values (whitespace both ends). -/
def pyStrip (s : String) : String :=
  String.mk (((s.data.dropWhile Char.isWhitespace).reverse.dropWhile
    Char.isWhitespace).reverse)

/-- Python str.lower on the cell values. -/
def pyLower (s : String) : String := String.mk (s.data.map Char.toLower)

/-- strip then lower, the normalization both scripts apply to key cells. -/
def pyNorm (s : String) : String := pyLower (pyStrip s)

/-- Python astype(str): a missing (NaN) cell prints as the string "nan". -/
def pyStr : Option String → String
  | none => "nan"
  | some s => s

/-- Python int() on a float: truncation toward zero. -/
def pyInt (q : ℚ) : ℤ := if q < 0 then -(Rat.floor (-q)) else Rat.floor q

/-- NaN-propagating multiplication of nullable cells. -/
def omul : Option ℚ → Option ℚ → Option ℚ
  | some a, some b => some (a * b)
  | _, _ => none

/-- NaN-propagating addition of nullable cells. -/
def oadd : Option ℚ → Option ℚ → Option ℚ
  | some a, some b => some (a + b)
  | _, _ => none

/-- pandas Series.sum with skipna: NaN entries are skipped. -/
def osum (xs : List (Option ℚ)) : ℚ := (xs.filterMap id).sum

/-- One raw catalog row after header normalization, before dropna/rename.
pages already went through pd.to_numeric(errors="coerce"): invalid is none. -/
structure RawRow where
  dashboardName : Option String
  tool : Option String
  conversionLevel : Option String
  pages : Option ℚ
  status : Option String
deriving DecidableEq, Repr

/-- A catalog row after dropna, rename and cell normalization. -/
structure Row where
  dashboard : String
  tool : Option String
  conversion_level : String
  pages : Option ℚ
  status : String
deriving DecidableEq, Repr

/-- One row of effort_levels.xlsx (headers already normalized). -/
structure EffortRow where
  conversion_level : String
  conversion_rate_hrs : ℚ
  junior_analyst_efforts : ℚ
  manager_efforts : ℚ
deriving DecidableEq, Repr

/-- One row of hourly_rates.xlsx (headers already normalized). -/
structure RateRow where
  position : String
  hourly_rate : ℚ
deriving DecidableEq, Repr

/-- The three input tables of either script. -/
structure Tables where
  catalog : List RawRow
  efforts : List EffortRow
  rates : List RateRow
deriving DecidableEq, Repr

/-- The derived per-row columns the cost model appends. -/
structure Derived where
  base_hours : Option ℚ
  junior_pct : Option ℚ
  manager_pct : Option ℚ
  page_factor : ℚ
  status_factor : Option ℚ
  adjusted_hours : Option ℚ
  jr_hours : Option ℚ
  mgr_hours : Option ℚ
  jr_cost : Option ℚ
  mgr_cost : Option ℚ
  total_cost : Option ℚ
deriving DecidableEq, Repr

namespace DashAnalysis

/-- dropna(subset=["dashboard name", "estimated conversion level"]). -/
def dropIncomplete (l : List RawRow) : List RawRow :=
  l.filter (fun r => r.dashboardName.isSome && r.conversionLevel.isSome)

/-- rename to canonical columns and normalize the key cells
(conversion_level strip+lower; status astype(str) strip+lower).
The getD defaults are unreachable after dropIncomplete. -/
def renameNormalize (r : RawRow) : Row :=
  { dashboard := r.dashboardName.getD ""
    tool := r.tool
    conversion_level := pyNorm (r.conversionLevel.getD "")
    pages := r.pages
    status := pyNorm (pyStr r.status) }

/-- The Row Filter and Renamer stage. -/
def cleanCatalog (l : List RawRow) : List Row :=
  (dropIncomplete l).map renameNormalize

/-- effort_lookup: set_index on the normalized conversion-level column;
Series.map of a missing key yields NaN, hence Option. -/
def effortLookup (efforts : List EffortRow) (key : String) : Option EffortRow :=
  List.lookup key (efforts.map (fun e => (pyNorm e.conversion_level, e)))

/-- The scale dict of page_multiplier, with scale.get(pages, 1.0). -/
def scale (n : ℤ) : ℚ :=
  if n = 1 then 1.00 else if n = 2 then 1.05 else if n = 3 then 1.10 else
  if n = 4 then 1.15 else if n = 5 then 1.20 else if n = 6 then 1.25 else
  if n = 7 then 1.30 else if n = 8 then 1.35 else if n = 9 then 1.40 else
  if n = 10 then 1.45 else 1.0

/-- page_multiplier from dash_analysis.py. -/
def page_multiplier (pages : Option ℚ) : ℚ :=
  match pages with
  | none => 1.0
  | some p => scale (min (pyInt p) 10)

/-- the status_multiplier dict; Series.map of a missing key yields NaN. -/
def status_multiplier (s : String) : Option ℚ :=
  if s = "active" then some 1.0 else
  if s = "in progress" then some 1.1 else
  if s = "broken" then some 1.3 else none

/-- rates = hourly_rates_df.set_index("position")["hourly rates"].to_dict()
followed by rates.get(key, 0): exact string keys, later rows overwrite
earlier ones, missing key defaults to 0. -/
def ratesGet (rates : List RateRow) (key : String) : ℚ :=
  (List.lookup key (rates.map (fun r => (r.position, r.hourly_rate))).reverse).getD 0

/-- All derived columns for one cleaned catalog row. -/
def computeRow (efforts : List EffortRow) (jr_rate mgr_rate : ℚ) (r : Row) :
    Derived :=
  let e := effortLookup efforts r.conversion_level
  let base_hours := e.map (fun x => x.conversion_rate_hrs)
  let junior_pct := e.map (fun x => x.junior_analyst_efforts)
  let manager_pct := e.map (fun x => x.manager_efforts)
  let page_factor := page_multiplier r.pages
  let status_factor := status_multiplier r.status
  let adjusted_hours := omul (omul base_hours (some page_factor)) status_factor
  let jr_hours := omul adjusted_hours (junior_pct.map (fun p => p / 100))
  let mgr_hours := omul adjusted_hours (manager_pct.map (fun p => p / 100))
  let jr_cost := jr_hours.map (fun h => h * jr_rate)
  let mgr_cost := mgr_hours.map (fun h => h * mgr_rate)
  { base_hours := base_hours
    junior_pct := junior_pct
    manager_pct := manager_pct
    page_factor := page_factor
    status_factor := status_factor
    adjusted_hours := adjusted_hours
    jr_hours := jr_hours
    mgr_hours := mgr_hours
    jr_cost := jr_cost
    mgr_cost := mgr_cost
    total_cost := oadd jr_cost mgr_cost }

def jr_rate (t : Tables) : ℚ := ratesGet t.rates "Junior Analyst"

def mgr_rate (t : Tables) : ℚ := ratesGet t.rates "Manager"

/-- dashboard_df with all derived columns appended. -/
def derivedRows (t : Tables) : List Derived :=
  (cleanCatalog t.catalog).map (computeRow t.efforts (jr_rate t) (mgr_rate t))

def total_hours (t : Tables) : ℚ :=
  osum ((derivedRows t).map (fun d => d.adjusted_hours))

def total_jr_cost (t : Tables) : ℚ :=
  osum ((derivedRows t).map (fun d => d.jr_cost))

def total_mgr_cost (t : Tables) : ℚ :=
  osum ((derivedRows t).map (fun d => d.mgr_cost))

def contractor_rate : ℚ := 43

def contractor_total_cost (t : Tables) : ℚ := total_hours t * contractor_rate

end DashAnalysis

namespace DashCatAnalysis

/-- dropna(subset=["dashboard name", "estimated conversion level"]). -/
def dropIncomplete (l : List RawRow) : List RawRow :=
  l.filter (fun r => r.dashboardName.isSome && r.conversionLevel.isSome)

/-- rename to canonical columns, normalize conversion_level and status. -/
def renameNormalize (r : RawRow) : Row :=
  { dashboard := r.dashboardName.getD ""
    tool := r.tool
    conversion_level := pyNorm (r.conversionLevel.getD "")
    pages := r.pages
    status := pyNorm (pyStr r.status) }

/-- The Row Filter and Renamer stage. -/
def cleanCatalog (l : List RawRow) : List Row :=
  (dropIncomplete l).map renameNormalize

/-- effort_lookup: set_index on the normalized conversion-level column. -/
def effortLookup (efforts : List EffortRow) (key : String) : Option EffortRow :=
  List.lookup key (efforts.map (fun e => (pyNorm e.conversion_level, e)))

/-- The scale dict of page_multiplier, with scale.get(pages, 1.0). -/
def scale (n : ℤ) : ℚ :=
  if n = 1 then 1.00 else if n = 2 then 1.05 else if n = 3 then 1.10 else
  if n = 4 then 1.15 else if n = 5 then 1.20 else if n = 6 then 1.25 else
  if n = 7 then 1.30 else if n = 8 then 1.35 else if n = 9 then 1.40 else
  if n = 10 then 1.45 else 1.0

/-- page_multiplier from dash_cat_analysis.py. -/
def page_multiplier (pages : Option ℚ) : ℚ :=
  match pages with
  | none => 1.0
  | some p => scale (min (pyInt p) 10)

/-- the status_multiplier dict. -/
def status_multiplier (s : String) : Option ℚ :=
  if s = "active" then some 1.0 else
  if s = "in progress" then some 1.1 else
  if s = "broken" then some 1.3 else none

/-- set_index("position")["hourly rates"].to_dict() then rates.get(key, 0). -/
def ratesGet (rates : List RateRow) (key : String) : ℚ :=
  (List.lookup key (rates.map (fun r => (r.position, r.hourly_rate))).reverse).getD 0

/-- All derived columns for one cleaned catalog row. -/
def computeRow (efforts : List EffortRow) (jr_rate mgr_rate : ℚ) (r : Row) :
    Derived :=
  let e := effortLookup efforts r.conversion_level
  let base_hours := e.map (fun x => x.conversion_rate_hrs)
  let junior_pct := e.map (fun x => x.junior_analyst_efforts)
  let manager_pct := e.map (fun x => x.manager_efforts)
  let page_factor := page_multiplier r.pages
  let status_factor := status_multiplier r.status
  let adjusted_hours := omul (omul base_hours (some page_factor)) status_factor
  let jr_hours := omul adjusted_hours (junior_pct.map (fun p => p / 100))
  let mgr_hours := omul adjusted_hours (manager_pct.map (fun p => p / 100))
  let jr_cost := jr_hours.map (fun h => h * jr_rate)
  let mgr_cost := mgr_hours.map (fun h => h * mgr_rate)
  { base_hours := base_hours
    junior_pct := junior_pct
    manager_pct := manager_pct
    page_factor := page_factor
    status_factor := status_factor
    adjusted_hours := adjusted_hours
    jr_hours := jr_hours
    mgr_hours := mgr_hours
    jr_cost := jr_cost
    mgr_cost := mgr_cost
    total_cost := oadd jr_cost mgr_cost }

def jr_rate (t : Tables) : ℚ := ratesGet t.rates "Junior Analyst"

def mgr_rate (t : Tables) : ℚ := ratesGet t.rates "Manager"

/-- dashboard_df with all derived columns appended. -/
def derivedRows (t : Tables) : List Derived :=
  (cleanCatalog t.catalog).map (computeRow t.efforts (jr_rate t) (mgr_rate t))

def total_hours (t : Tables) : ℚ :=
  osum ((derivedRows t).map (fun d => d.adjusted_hours))

def total_jr_cost (t : Tables) : ℚ :=
  osum ((derivedRows t).map (fun d => d.jr_cost))

def total_mgr_cost (t : Tables) : ℚ :=
  osum ((derivedRows t).map (fun d => d.mgr_cost))

/-- Total cost if all work were done at the junior analyst rate. -/
def contractor_total_cost (t : Tables) : ℚ := total_hours t * jr_rate t

end DashCatAnalysis

/-! Helper lemmas about the embedding. -/

theorem omul_none_left (x : Option ℚ) : omul none x = none := rfl

theorem omul_none_right (x : Option ℚ) : omul x none = none := by
  cases x <;> rfl

theorem omul_some (a b : ℚ) : omul (some a) (some b) = some (a * b) := rfl

theorem oadd_none_left (x : Option ℚ) : oadd none x = none := rfl

theorem oadd_none_right (x : Option ℚ) : oadd x none = none := by
  cases x <;> rfl

theorem oadd_some (a b : ℚ) : oadd (some a) (some b) = some (a + b) := rfl

theorem ratFloor_eq_intFloor (q : ℚ) : Rat.floor q = ⌊q⌋ := by
  rw [Rat.floor_def', ← Rat.floor_def]

theorem pyInt_of_nonneg (q : ℚ) (h : 0 ≤ q) : pyInt q = ⌊q⌋ := by
  rw [pyInt, if_neg (not_lt.mpr h), ratFloor_eq_intFloor]

theorem pyInt_nonpos_of_neg (q : ℚ) (h : q < 0) : pyInt q ≤ 0 := by
  rw [pyInt, if_pos h, ratFloor_eq_intFloor]
  have : (0 : ℤ) ≤ ⌊-q⌋ := Int.floor_nonneg.mpr (by linarith)
  omega

theorem lookup_eq_none {β : Type} (key : String) (l : List (String × β))
    (h : ∀ p ∈ l, p.1 ≠ key) : List.lookup key l = none := by
  induction l with
  | nil => rfl
  | cons p t ih =>
    have hp : p.1 ≠ key := h p (List.mem_cons_self p t)
    have hbeq : (key == p.1) = false := beq_eq_false_iff_ne.mpr (Ne.symm hp)
    simp only [List.lookup, hbeq]
    exact ih (fun q hq => h q (List.mem_cons_of_mem p hq))

theorem osum_eq_defined_sum (xs : List (Option ℚ)) :
    osum xs = ((xs.filter Option.isSome).map (fun o => o.getD 0)).sum := by
  induction xs with
  | nil => rfl
  | cons x t ih =>
    cases x with
    | none => simpa [osum, List.filterMap] using ih
    | some v =>
      simp only [osum, List.filterMap, List.filter, Option.isSome] at ih ⊢
      simpa using ih

theorem scale_in_range (n : ℤ) (h1 : 1 ≤ n) (h2 : n ≤ 10) :
    DashAnalysis.scale n = 1 + (5 : ℚ) / 100 * ((n : ℚ) - 1) := by
  interval_cases n <;> norm_num [DashAnalysis.scale]

theorem scale_out_of_range (n : ℤ) (h : n < 1 ∨ 10 < n) :
    DashAnalysis.scale n = 1 := by
  have h1 : n ≠ 1 := by omega
  have h2 : n ≠ 2 := by omega
  have h3 : n ≠ 3 := by omega
  have h4 : n ≠ 4 := by omega
  have h5 : n ≠ 5 := by omega
  have h6 : n ≠ 6 := by omega
  have h7 : n ≠ 7 := by omega
  have h8 : n ≠ 8 := by omega
  have h9 : n ≠ 9 := by omega
  have h10 : n ≠ 10 := by omega
  norm_num [DashAnalysis.scale, h1, h2, h3, h4, h5, h6, h7, h8, h9, h10]

/-! Claim theorems. -/

/-- C1: for every cleaned catalog row whose conversion level resolves in the
effort table and whose status resolves in the status dict, the cost model
computes adjusted_hours = base_hours * page_factor * status_factor,
jr_hours = adjusted_hours * junior_pct / 100, mgr_hours = adjusted_hours *
manager_pct / 100, jr_cost = jr_hours * jr_rate, mgr_cost = mgr_hours *
mgr_rate, and total_cost = jr_cost + mgr_cost.  No hypothesis constrains
junior_pct + manager_pct, so no validation that the percentages sum to 100
is performed (the witness uses 70 and 90). -/
theorem c1_cost_model (efforts : List EffortRow) (jr mgr : ℚ) (r : Row)
    (e : EffortRow) (sf : ℚ)
    (he : DashAnalysis.effortLookup efforts r.conversion_level = some e)
    (hs : DashAnalysis.status_multiplier r.status = some sf) :
    (DashAnalysis.computeRow efforts jr mgr r).adjusted_hours
        = some (e.conversion_rate_hrs * DashAnalysis.page_multiplier r.pages * sf) ∧
    (DashAnalysis.computeRow efforts jr mgr r).jr_hours
        = some (e.conversion_rate_hrs * DashAnalysis.page_multiplier r.pages * sf
            * (e.junior_analyst_efforts / 100)) ∧
    (DashAnalysis.computeRow efforts jr mgr r).mgr_hours
        = some (e.conversion_rate_hrs * DashAnalysis.page_multiplier r.pages * sf
            * (e.manager_efforts / 100)) ∧
    (DashAnalysis.computeRow efforts jr mgr r).jr_cost
        = some (e.conversion_rate_hrs * DashAnalysis.page_multiplier r.pages * sf
            * (e.junior_analyst_efforts / 100) * jr) ∧
    (DashAnalysis.computeRow efforts jr mgr r).mgr_cost
        = some (e.conversion_rate_hrs * DashAnalysis.page_multiplier r.pages * sf
            * (e.manager_efforts / 100) * mgr) ∧
    (DashAnalysis.computeRow efforts jr mgr r).total_cost
        = some (e.conversion_rate_hrs * DashAnalysis.page_multiplier r.pages * sf
            * (e.junior_analyst_efforts / 100) * jr
          + e.conversion_rate_hrs * DashAnalysis.page_multiplier r.pages * sf
            * (e.manager_efforts / 100) * mgr) := by
  simp [DashAnalysis.computeRow, he, hs, omul, oadd]

/-- Witness for C1 at a concrete row with junior_pct + manager_pct = 160. -/
theorem c1_cost_model_witness :
    (DashAnalysis.computeRow [⟨"medium", 10, 70, 90⟩] 50 100
        ⟨"Sales", none, "medium", some 3, "active"⟩).adjusted_hours = some 11 ∧
    (DashAnalysis.computeRow [⟨"medium", 10, 70, 90⟩] 50 100
        ⟨"Sales", none, "medium", some 3, "active"⟩).total_cost
      = some (385 + 990) := by
  have h := c1_cost_model [⟨"medium", 10, 70, 90⟩] 50 100
    ⟨"Sales", none, "medium", some 3, "active"⟩ ⟨"medium", 10, 70, 90⟩ 1.0
    (by decide) (by rfl)
  have hp : DashAnalysis.page_multiplier (some 3) = 1.10 := by
    have h3 : pyInt 3 = 3 := by decide
    norm_num [DashAnalysis.page_multiplier, h3, DashAnalysis.scale]
  obtain ⟨h1, _, _, _, _, h6⟩ := h
  constructor
  · rw [h1, hp]; norm_num
  · rw [h6, hp]; norm_num

theorem pm_eq_scale_floor (q : ℚ) :
    DashAnalysis.page_multiplier (some q) = DashAnalysis.scale (min ⌊q⌋ 10) := by
  by_cases hq : 0 ≤ q
  · simp [DashAnalysis.page_multiplier, pyInt_of_nonneg q hq]
  · push_neg at hq
    have h1 : pyInt q ≤ 0 := pyInt_nonpos_of_neg q hq
    have h2 : ⌊q⌋ ≤ 0 := Int.floor_nonpos (le_of_lt hq)
    simp only [DashAnalysis.page_multiplier]
    rw [scale_out_of_range _ (Or.inl (by omega)),
      scale_out_of_range _ (Or.inl (by omega))]

theorem pm_in_range (q : ℚ) (n : ℤ) (hn : min ⌊q⌋ 10 = n)
    (h1 : 1 ≤ n) (h10 : n ≤ 10) :
    DashAnalysis.page_multiplier (some q) = 1 + 0.05 * ((n : ℚ) - 1) := by
  subst hn
  rw [pm_eq_scale_floor, scale_in_range _ h1 h10]
  norm_num

theorem pm_below_range (q : ℚ) (hn : min ⌊q⌋ 10 < 1) :
    DashAnalysis.page_multiplier (some q) = 1.0 := by
  rw [pm_eq_scale_floor, scale_out_of_range _ (Or.inl hn)]
  norm_num

theorem pm_mono (p q : ℚ) (hp : 1 ≤ p) (hpq : p ≤ q) (hq : q ≤ 10) :
    DashAnalysis.page_multiplier (some p) ≤ DashAnalysis.page_multiplier (some q) := by
  have hfp : 1 ≤ ⌊p⌋ := by
    rw [Int.le_floor]; exact_mod_cast hp
  have hfq1 : 1 ≤ ⌊q⌋ := by
    rw [Int.le_floor]; exact_mod_cast hp.trans hpq
  have hfq10 : ⌊q⌋ ≤ 10 := by
    have := Int.floor_le_floor hq
    simpa using this
  have hff : ⌊p⌋ ≤ ⌊q⌋ := Int.floor_le_floor hpq
  rw [pm_in_range p ⌊p⌋ (by omega) hfp (by omega),
    pm_in_range q ⌊q⌋ (by omega) hfq1 hfq10]
  have : ((⌊p⌋ : ℚ)) ≤ ((⌊q⌋ : ℚ)) := by exact_mod_cast hff
  nlinarith

/-- C2: the page factor of an absent page count is 1.0; with pages present it
is the scale-table entry at effective_pages = min(floor p, 10); for
effective_pages in [1,10] it equals exactly 1 + 0.05 * (effective_pages - 1);
any effective_pages below that range (0 or negative included) falls back to
1.0 rather than an error; the factor is non-decreasing on [1,10]; and p = 15
yields 1.45. -/
theorem c2_page_factor :
    DashAnalysis.page_multiplier none = 1.0 ∧
    (∀ q : ℚ, DashAnalysis.page_multiplier (some q)
        = DashAnalysis.scale (min ⌊q⌋ 10)) ∧
    (∀ (q : ℚ) (n : ℤ), min ⌊q⌋ 10 = n → 1 ≤ n → n ≤ 10 →
        DashAnalysis.page_multiplier (some q) = 1 + 0.05 * ((n : ℚ) - 1)) ∧
    (∀ q : ℚ, min ⌊q⌋ 10 < 1 → DashAnalysis.page_multiplier (some q) = 1.0) ∧
    (∀ p q : ℚ, 1 ≤ p → p ≤ q → q ≤ 10 →
        DashAnalysis.page_multiplier (some p)
          ≤ DashAnalysis.page_multiplier (some q)) ∧
    DashAnalysis.page_multiplier (some 15) = 1.45 := by
  refine ⟨rfl, pm_eq_scale_floor, pm_in_range, pm_below_range, pm_mono, ?_⟩
  have h15 : pyInt 15 = 15 := by decide
  norm_num [DashAnalysis.page_multiplier, h15, DashAnalysis.scale]

/-- Witness for C2: pages = 3 gives factor 1.10, and pages = 0 gives 1.0. -/
theorem c2_page_factor_witness :
    DashAnalysis.page_multiplier (some 3) = 1 + 0.05 * ((3 : ℚ) - 1) ∧
    DashAnalysis.page_multiplier (some 0) = 1.0 := by
  constructor
  · exact c2_page_factor.2.2.1 3 3 (by simp) (by decide) (by decide)
  · exact c2_page_factor.2.2.2.1 0 (by simp)

/-- C3: the status factor is exactly 1.0 for "active", 1.1 for "in progress"
and 1.3 for "broken"; any other normalized status string yields an undefined
(none) factor, and that undefined value propagates through adjusted_hours,
jr_cost, mgr_cost and total_cost of the row; the row computation is a total
function, so the run is never aborted. -/
theorem c3_status_factor :
    DashAnalysis.status_multiplier "active" = some 1.0 ∧
    DashAnalysis.status_multiplier "in progress" = some 1.1 ∧
    DashAnalysis.status_multiplier "broken" = some 1.3 ∧
    (∀ s : String, s ≠ "active" → s ≠ "in progress" → s ≠ "broken" →
      DashAnalysis.status_multiplier s = none) ∧
    (∀ (efforts : List EffortRow) (jr mgr : ℚ) (r : Row),
      DashAnalysis.status_multiplier r.status = none →
      (DashAnalysis.computeRow efforts jr mgr r).adjusted_hours = none ∧
      (DashAnalysis.computeRow efforts jr mgr r).jr_cost = none ∧
      (DashAnalysis.computeRow efforts jr mgr r).mgr_cost = none ∧
      (DashAnalysis.computeRow efforts jr mgr r).total_cost = none) := by
  refine ⟨rfl, rfl, rfl, ?_, ?_⟩
  · intro s h1 h2 h3
    simp [DashAnalysis.status_multiplier, h1, h2, h3]
  · intro efforts jr mgr r hs
    simp [DashAnalysis.computeRow, hs, omul_none_right, omul_none_left, oadd]

/-- Witness for C3: a row with unrecognized status "retired" gets undefined
derived values. -/
theorem c3_status_factor_witness :
    (DashAnalysis.computeRow [⟨"low", 5, 60, 40⟩] 50 100
        ⟨"Inventory", none, "low", some 2, "retired"⟩).adjusted_hours = none ∧
    (DashAnalysis.computeRow [⟨"low", 5, 60, 40⟩] 50 100
        ⟨"Inventory", none, "low", some 2, "retired"⟩).jr_cost = none ∧
    (DashAnalysis.computeRow [⟨"low", 5, 60, 40⟩] 50 100
        ⟨"Inventory", none, "low", some 2, "retired"⟩).mgr_cost = none ∧
    (DashAnalysis.computeRow [⟨"low", 5, 60, 40⟩] 50 100
        ⟨"Inventory", none, "low", some 2, "retired"⟩).total_cost = none :=
  c3_status_factor.2.2.2.2 [⟨"low", 5, 60, 40⟩] 50 100
    ⟨"Inventory", none, "low", some 2, "retired"⟩ (by rfl)

theorem derivedRows_perm (t₁ t₂ : Tables) (he : t₁.efforts = t₂.efforts)
    (hr : t₁.rates = t₂.rates) (hcat : t₁.catalog.Perm t₂.catalog) :
    (DashAnalysis.derivedRows t₁).Perm (DashAnalysis.derivedRows t₂) := by
  simp only [DashAnalysis.derivedRows, DashAnalysis.cleanCatalog,
    DashAnalysis.dropIncomplete, DashAnalysis.jr_rate, DashAnalysis.mgr_rate,
    he, hr]
  exact List.Perm.map _ (List.Perm.map _ (List.Perm.filter _ hcat))

theorem osum_perm (xs ys : List (Option ℚ)) (h : xs.Perm ys) :
    osum xs = osum ys :=
  (h.filterMap id).sum_eq

/-- C4: each aggregate is the sum of the corresponding derived column over
exactly the rows where that column is defined (undefined rows are excluded,
not coerced to zero), and the sum is commutative: permuting the catalog
leaves total_hours, total_jr_cost and total_mgr_cost unchanged. -/
theorem c4_aggregates :
    (∀ t : Tables,
      DashAnalysis.total_hours t
        = ((((DashAnalysis.derivedRows t).map (fun d => d.adjusted_hours)).filter
            Option.isSome).map (fun o => o.getD 0)).sum ∧
      DashAnalysis.total_jr_cost t
        = ((((DashAnalysis.derivedRows t).map (fun d => d.jr_cost)).filter
            Option.isSome).map (fun o => o.getD 0)).sum ∧
      DashAnalysis.total_mgr_cost t
        = ((((DashAnalysis.derivedRows t).map (fun d => d.mgr_cost)).filter
            Option.isSome).map (fun o => o.getD 0)).sum) ∧
    (∀ t₁ t₂ : Tables, t₁.efforts = t₂.efforts → t₁.rates = t₂.rates →
      t₁.catalog.Perm t₂.catalog →
      DashAnalysis.total_hours t₁ = DashAnalysis.total_hours t₂ ∧
      DashAnalysis.total_jr_cost t₁ = DashAnalysis.total_jr_cost t₂ ∧
      DashAnalysis.total_mgr_cost t₁ = DashAnalysis.total_mgr_cost t₂) := by
  constructor
  · intro t
    exact ⟨osum_eq_defined_sum _, osum_eq_defined_sum _, osum_eq_defined_sum _⟩
  · intro t₁ t₂ he hr hcat
    have hd := derivedRows_perm t₁ t₂ he hr hcat
    exact ⟨osum_perm _ _ (hd.map _), osum_perm _ _ (hd.map _),
      osum_perm _ _ (hd.map _)⟩

def c4RowA : RawRow := ⟨some "Sales", none, some "medium", some 3, some "active"⟩

def c4RowB : RawRow := ⟨some "Ops", none, some "low", none, some "broken"⟩

def c4TablesA : Tables :=
  ⟨[c4RowA, c4RowB], [⟨"medium", 10, 70, 30⟩, ⟨"low", 5, 60, 40⟩],
    [⟨"Junior Analyst", 50⟩, ⟨"Manager", 100⟩]⟩

def c4TablesB : Tables :=
  ⟨[c4RowB, c4RowA], [⟨"medium", 10, 70, 30⟩, ⟨"low", 5, 60, 40⟩],
    [⟨"Junior Analyst", 50⟩, ⟨"Manager", 100⟩]⟩

/-- Witness for C4: swapping the two catalog rows leaves all aggregates
unchanged. -/
theorem c4_aggregates_witness :
    DashAnalysis.total_hours c4TablesA = DashAnalysis.total_hours c4TablesB ∧
    DashAnalysis.total_jr_cost c4TablesA = DashAnalysis.total_jr_cost c4TablesB ∧
    DashAnalysis.total_mgr_cost c4TablesA = DashAnalysis.total_mgr_cost c4TablesB :=
  c4_aggregates.2 c4TablesA c4TablesB rfl rfl (by decide)

theorem computeRow_eval (efforts : List EffortRow) (jr mgr : ℚ) (r : Row)
    (e : EffortRow) (sf : ℚ)
    (he : DashAnalysis.effortLookup efforts r.conversion_level = some e)
    (hs : DashAnalysis.status_multiplier r.status = some sf) :
    (DashAnalysis.computeRow efforts jr mgr r).page_factor
        = DashAnalysis.page_multiplier r.pages ∧
    (DashAnalysis.computeRow efforts jr mgr r).status_factor = some sf ∧
    (DashAnalysis.computeRow efforts jr mgr r).adjusted_hours
        = some (e.conversion_rate_hrs * DashAnalysis.page_multiplier r.pages * sf) ∧
    (DashAnalysis.computeRow efforts jr mgr r).jr_hours
        = some (e.conversion_rate_hrs * DashAnalysis.page_multiplier r.pages * sf
            * (e.junior_analyst_efforts / 100)) ∧
    (DashAnalysis.computeRow efforts jr mgr r).mgr_hours
        = some (e.conversion_rate_hrs * DashAnalysis.page_multiplier r.pages * sf
            * (e.manager_efforts / 100)) ∧
    (DashAnalysis.computeRow efforts jr mgr r).jr_cost
        = some (e.conversion_rate_hrs * DashAnalysis.page_multiplier r.pages * sf
            * (e.junior_analyst_efforts / 100) * jr) ∧
    (DashAnalysis.computeRow efforts jr mgr r).mgr_cost
        = some (e.conversion_rate_hrs * DashAnalysis.page_multiplier r.pages * sf
            * (e.manager_efforts / 100) * mgr) ∧
    (DashAnalysis.computeRow efforts jr mgr r).total_cost
        = some (e.conversion_rate_hrs * DashAnalysis.page_multiplier r.pages * sf
            * (e.junior_analyst_efforts / 100) * jr
          + e.conversion_rate_hrs * DashAnalysis.page_multiplier r.pages * sf
            * (e.manager_efforts / 100) * mgr) := by
  simp [DashAnalysis.computeRow, he, hs, omul, oadd]

def c5Tables : Tables :=
  ⟨[⟨some "Sales", none, some "medium", some 3, some "active"⟩],
    [⟨"medium", 10, 70, 30⟩],
    [⟨"Junior Analyst", 50⟩, ⟨"Manager", 100⟩]⟩

def c5Row : Row := ⟨"Sales", none, "medium", some 3, "active"⟩

/-- C5: on the single catalog row Sales/medium/pages 3/active with effort
row medium = (10 h, 70 %, 30 %) and rates Junior Analyst 50, Manager 100,
the pipeline yields exactly page_factor 1.10, status_factor 1.0,
adjusted_hours 11, jr_hours 7.7, mgr_hours 3.3, jr_cost 385, mgr_cost 330
and total_cost 715 (exact rational arithmetic, so within any tolerance). -/
theorem c5_scenario :
    DashAnalysis.derivedRows c5Tables
      = [DashAnalysis.computeRow c5Tables.efforts 50 100 c5Row] ∧
    (DashAnalysis.computeRow c5Tables.efforts 50 100 c5Row).page_factor = 1.10 ∧
    (DashAnalysis.computeRow c5Tables.efforts 50 100 c5Row).status_factor
        = some 1.0 ∧
    (DashAnalysis.computeRow c5Tables.efforts 50 100 c5Row).adjusted_hours
        = some 11 ∧
    (DashAnalysis.computeRow c5Tables.efforts 50 100 c5Row).jr_hours
        = some 7.7 ∧
    (DashAnalysis.computeRow c5Tables.efforts 50 100 c5Row).mgr_hours
        = some 3.3 ∧
    (DashAnalysis.computeRow c5Tables.efforts 50 100 c5Row).jr_cost
        = some 385 ∧
    (DashAnalysis.computeRow c5Tables.efforts 50 100 c5Row).mgr_cost
        = some 330 ∧
    (DashAnalysis.computeRow c5Tables.efforts 50 100 c5Row).total_cost
        = some 715 := by
  obtain ⟨hpf, hsf, hah, hjh, hmh, hjc, hmc, htc⟩ :=
    computeRow_eval c5Tables.efforts 50 100 c5Row ⟨"medium", 10, 70, 30⟩ 1.0
      (by decide) (by rfl)
  have hp : c5Row.pages = some 3 := rfl
  have hpm : DashAnalysis.page_multiplier (some 3) = 1.10 := by
    have h3 : pyInt 3 = 3 := by decide
    norm_num [DashAnalysis.page_multiplier, h3, DashAnalysis.scale]
  rw [hp, hpm] at hpf hah hjh hmh hjc hmc htc
  refine ⟨by rfl, hpf, hsf, ?_, ?_, ?_, ?_, ?_, ?_⟩
  · rw [hah]; norm_num
  · rw [hjh]; norm_num
  · rw [hmh]; norm_num
  · rw [hjc]; norm_num
  · rw [hmc]; norm_num
  · rw [htc]; norm_num

/-- C6: on identical input tables the two scripts compute identical per-row
derived fields and identical aggregates total_hours, total_jr_cost and
total_mgr_cost; they differ only in the single-rate scenario, which is
total_hours * 43 in dash_analysis.py and total_hours * jr_rate in
dash_cat_analysis.py. -/
theorem c6_pipeline_equivalence :
    (∀ (efforts : List EffortRow) (jr mgr : ℚ) (r : Row),
      DashAnalysis.computeRow efforts jr mgr r
        = DashCatAnalysis.computeRow efforts jr mgr r) ∧
    (∀ t : Tables, DashAnalysis.derivedRows t = DashCatAnalysis.derivedRows t) ∧
    (∀ t : Tables,
      DashAnalysis.total_hours t = DashCatAnalysis.total_hours t ∧
      DashAnalysis.total_jr_cost t = DashCatAnalysis.total_jr_cost t ∧
      DashAnalysis.total_mgr_cost t = DashCatAnalysis.total_mgr_cost t) ∧
    (∀ t : Tables, DashAnalysis.contractor_total_cost t
        = DashAnalysis.total_hours t * 43) ∧
    (∀ t : Tables, DashCatAnalysis.contractor_total_cost t
        = DashCatAnalysis.total_hours t * DashCatAnalysis.jr_rate t) :=
  ⟨fun _ _ _ _ => rfl, fun _ => rfl, fun _ => ⟨rfl, rfl, rfl⟩,
    fun _ => rfl, fun _ => rfl⟩

/-- C7 counterexample: a raw row whose name cell holds the empty string is
retained by the filter (dropna only drops absent cells), so the claim that
every retained row has a non-empty name is false. -/
theorem c7_counterexample :
    DashAnalysis.cleanCatalog
        [⟨some "", some "Tableau", some "low", none, some "active"⟩]
      = [⟨"", some "Tableau", "low", none, "active"⟩] := by
  rfl

/-- C7 amended: the Row Filter discards exactly the rows whose pre-rename
name cell or conversion-level cell is absent (null); every retained row has
a present (non-null) name, but emptiness of the name is not checked; the
retained rows pass through the rename/normalize map and nothing else. -/
theorem c7_filter_amended :
    (∀ (l : List RawRow) (r : RawRow),
      r ∈ DashAnalysis.dropIncomplete l ↔
        r ∈ l ∧ r.dashboardName ≠ none ∧ r.conversionLevel ≠ none) ∧
    (∀ l : List RawRow, DashAnalysis.cleanCatalog l
        = (DashAnalysis.dropIncomplete l).map DashAnalysis.renameNormalize) := by
  constructor
  · intro l r
    simp [DashAnalysis.dropIncomplete, List.mem_filter,
      Option.isSome_iff_ne_none, and_assoc]
  · intro l
    rfl

theorem jr_cost_proj (efforts : List EffortRow) (jr mgr : ℚ) (r : Row) :
    (DashAnalysis.computeRow efforts jr mgr r).jr_cost
      = (DashAnalysis.computeRow efforts jr mgr r).jr_hours.map
          (fun h => h * jr) := rfl

theorem osum_zero (xs : List (Option ℚ))
    (h : ∀ x ∈ xs, x = none ∨ x = some 0) : osum xs = 0 := by
  apply List.sum_eq_zero
  intro y hy
  rw [List.mem_filterMap] at hy
  obtain ⟨x, hx, hxy⟩ := hy
  rcases h x hx with h1 | h1 <;> rw [h1] at hxy <;>
    simp only [id] at hxy
  · exact absurd hxy (by simp)
  · exact (Option.some.injEq _ _ ▸ hxy).symm

theorem ratesGet_missing (rates : List RateRow) (key : String)
    (hj : ∀ rr ∈ rates, rr.position ≠ key) :
    DashAnalysis.ratesGet rates key = 0 := by
  have hnone : List.lookup key
      ((rates.map (fun rr => (rr.position, rr.hourly_rate))).reverse) = none := by
    apply lookup_eq_none
    intro p hp
    rw [List.mem_reverse] at hp
    obtain ⟨rr, hrr, rfl⟩ := List.mem_map.mp hp
    exact hj rr hrr
  simp [DashAnalysis.ratesGet, hnone]

theorem mgr_cost_proj (efforts : List EffortRow) (jr mgr : ℚ) (r : Row) :
    (DashAnalysis.computeRow efforts jr mgr r).mgr_cost
      = (DashAnalysis.computeRow efforts jr mgr r).mgr_hours.map
          (fun h => h * mgr) := rfl

/-- C8: when a role key — "Junior Analyst" or "Manager" — is missing from
the rate table, that role's hourly rate defaults to 0; every row with
defined hours for that role then gets cost 0 for it, and that role's
aggregate total cost is 0 — its cost contribution is silently zeroed in
every row, with no error raised. -/
theorem c8_missing_rate :
    (∀ rates : List RateRow, (∀ rr ∈ rates, rr.position ≠ "Junior Analyst") →
      DashAnalysis.ratesGet rates "Junior Analyst" = 0 ∧
      (∀ (efforts : List EffortRow) (mgr : ℚ) (r : Row) (v : ℚ),
        (DashAnalysis.computeRow efforts
            (DashAnalysis.ratesGet rates "Junior Analyst") mgr r).jr_hours
          = some v →
        (DashAnalysis.computeRow efforts
            (DashAnalysis.ratesGet rates "Junior Analyst") mgr r).jr_cost
          = some 0) ∧
      (∀ t : Tables, t.rates = rates → DashAnalysis.total_jr_cost t = 0)) ∧
    (∀ rates : List RateRow, (∀ rr ∈ rates, rr.position ≠ "Manager") →
      DashAnalysis.ratesGet rates "Manager" = 0 ∧
      (∀ (efforts : List EffortRow) (jr : ℚ) (r : Row) (v : ℚ),
        (DashAnalysis.computeRow efforts jr
            (DashAnalysis.ratesGet rates "Manager") r).mgr_hours = some v →
        (DashAnalysis.computeRow efforts jr
            (DashAnalysis.ratesGet rates "Manager") r).mgr_cost = some 0) ∧
      (∀ t : Tables, t.rates = rates → DashAnalysis.total_mgr_cost t = 0)) := by
  constructor
  · intro rates hj
    have h0 : DashAnalysis.ratesGet rates "Junior Analyst" = 0 :=
      ratesGet_missing rates "Junior Analyst" hj
    refine ⟨h0, ?_, ?_⟩
    · intro efforts mgr r v hv
      rw [jr_cost_proj, hv, h0]
      simp
    · intro t ht
      rw [DashAnalysis.total_jr_cost]
      apply osum_zero
      intro x hx
      rw [List.mem_map] at hx
      obtain ⟨d, hd, rfl⟩ := hx
      rw [DashAnalysis.derivedRows, List.mem_map] at hd
      obtain ⟨r, hr, rfl⟩ := hd
      have hjr0 : DashAnalysis.jr_rate t = 0 := by
        rw [DashAnalysis.jr_rate, ht, h0]
      rw [jr_cost_proj, hjr0]
      rcases (DashAnalysis.computeRow t.efforts 0 (DashAnalysis.mgr_rate t)
          r).jr_hours with _ | v
      · exact Or.inl rfl
      · exact Or.inr (by simp)
  · intro rates hm
    have h0 : DashAnalysis.ratesGet rates "Manager" = 0 :=
      ratesGet_missing rates "Manager" hm
    refine ⟨h0, ?_, ?_⟩
    · intro efforts jr r v hv
      rw [mgr_cost_proj, hv, h0]
      simp
    · intro t ht
      rw [DashAnalysis.total_mgr_cost]
      apply osum_zero
      intro x hx
      rw [List.mem_map] at hx
      obtain ⟨d, hd, rfl⟩ := hx
      rw [DashAnalysis.derivedRows, List.mem_map] at hd
      obtain ⟨r, hr, rfl⟩ := hd
      have hmgr0 : DashAnalysis.mgr_rate t = 0 := by
        rw [DashAnalysis.mgr_rate, ht, h0]
      rw [mgr_cost_proj, hmgr0]
      rcases (DashAnalysis.computeRow t.efforts (DashAnalysis.jr_rate t) 0
          r).mgr_hours with _ | v
      · exact Or.inl rfl
      · exact Or.inr (by simp)

def c8Tables : Tables :=
  ⟨[⟨some "Sales", none, some "medium", some 3, some "active"⟩],
    [⟨"medium", 10, 70, 30⟩], [⟨"Manager", 100⟩]⟩

def c8TablesM : Tables :=
  ⟨[⟨some "Sales", none, some "medium", some 3, some "active"⟩],
    [⟨"medium", 10, 70, 30⟩], [⟨"Junior Analyst", 50⟩]⟩

/-- Witness for C8: a rate table listing only the Manager role zeroes the
junior totals, and one listing only the Junior Analyst role zeroes the
manager totals. -/
theorem c8_missing_rate_witness :
    DashAnalysis.ratesGet [⟨"Manager", 100⟩] "Junior Analyst" = 0 ∧
    DashAnalysis.total_jr_cost c8Tables = 0 ∧
    DashAnalysis.ratesGet [⟨"Junior Analyst", 50⟩] "Manager" = 0 ∧
    DashAnalysis.total_mgr_cost c8TablesM = 0 :=
  ⟨(c8_missing_rate.1 [⟨"Manager", 100⟩] (by decide)).1,
    (c8_missing_rate.1 [⟨"Manager", 100⟩] (by decide)).2.2 c8Tables rfl,
    (c8_missing_rate.2 [⟨"Junior Analyst", 50⟩] (by decide)).1,
    (c8_missing_rate.2 [⟨"Junior Analyst", 50⟩] (by decide)).2.2 c8TablesM rfl⟩

/-- C9: determinism: two runs of either pipeline on equal input tables give
equal per-row derived fields and equal aggregate totals, including both
single-rate scenario totals.  The embedding is a pure function of the
tables, so equality of inputs propagates to every output. -/
theorem c9_determinism (t₁ t₂ : Tables) (h : t₁ = t₂) :
    DashAnalysis.derivedRows t₁ = DashAnalysis.derivedRows t₂ ∧
    DashAnalysis.total_hours t₁ = DashAnalysis.total_hours t₂ ∧
    DashAnalysis.total_jr_cost t₁ = DashAnalysis.total_jr_cost t₂ ∧
    DashAnalysis.total_mgr_cost t₁ = DashAnalysis.total_mgr_cost t₂ ∧
    DashAnalysis.contractor_total_cost t₁
      = DashAnalysis.contractor_total_cost t₂ ∧
    DashCatAnalysis.derivedRows t₁ = DashCatAnalysis.derivedRows t₂ ∧
    DashCatAnalysis.total_hours t₁ = DashCatAnalysis.total_hours t₂ ∧
    DashCatAnalysis.total_jr_cost t₁ = DashCatAnalysis.total_jr_cost t₂ ∧
    DashCatAnalysis.total_mgr_cost t₁ = DashCatAnalysis.total_mgr_cost t₂ ∧
    DashCatAnalysis.contractor_total_cost t₁
      = DashCatAnalysis.contractor_total_cost t₂ := by
  subst h
  exact ⟨rfl, rfl, rfl, rfl, rfl, rfl, rfl, rfl, rfl, rfl⟩

/-- Witness for C9 at the concrete sample tables. -/
theorem c9_determinism_witness :
    DashAnalysis.total_hours c5Tables = DashAnalysis.total_hours c5Tables ∧
    DashCatAnalysis.contractor_total_cost c5Tables
      = DashCatAnalysis.contractor_total_cost c5Tables :=
  ⟨(c9_determinism c5Tables c5Tables rfl).2.1,
    (c9_determinism c5Tables c5Tables rfl).2.2.2.2.2.2.2.2.2⟩

/-- C10: the rate-table lookup matches position cells by exact, case- and
whitespace-sensitive string equality against "Junior Analyst" and
"Manager" (cell values are never normalized, unlike the conversion-level
join and the status keys, which are normalized); a cell differing only in
case or surrounding whitespace is missed and the rate silently becomes 0. -/
theorem c10_exact_rate_lookup :
    (∀ rates : List RateRow, (∀ rr ∈ rates, rr.position ≠ "Junior Analyst") →
      DashAnalysis.ratesGet rates "Junior Analyst" = 0) ∧
    (∀ rates : List RateRow, (∀ rr ∈ rates, rr.position ≠ "Manager") →
      DashAnalysis.ratesGet rates "Manager" = 0) ∧
    DashAnalysis.ratesGet [⟨"junior analyst", 50⟩] "Junior Analyst" = 0 ∧
    DashAnalysis.ratesGet [⟨" Junior Analyst ", 50⟩] "Junior Analyst" = 0 ∧
    DashAnalysis.ratesGet [⟨"Junior Analyst", 50⟩] "Junior Analyst" = 50 ∧
    DashAnalysis.ratesGet [⟨"manager", 100⟩] "Manager" = 0 ∧
    DashAnalysis.ratesGet [⟨" Manager ", 100⟩] "Manager" = 0 ∧
    DashAnalysis.ratesGet [⟨"Manager", 100⟩] "Manager" = 100 ∧
    DashCatAnalysis.ratesGet [⟨"junior analyst", 50⟩] "Junior Analyst" = 0 ∧
    DashCatAnalysis.ratesGet [⟨"Junior Analyst", 50⟩] "Junior Analyst" = 50 ∧
    DashCatAnalysis.ratesGet [⟨"manager", 100⟩] "Manager" = 0 ∧
    DashCatAnalysis.ratesGet [⟨"Manager", 100⟩] "Manager" = 100 ∧
    DashAnalysis.effortLookup [⟨" MEDIUM ", 10, 70, 30⟩] "medium"
      = some ⟨" MEDIUM ", 10, 70, 30⟩ ∧
    DashAnalysis.status_multiplier (pyNorm " Active ") = some 1.0 := by
  refine ⟨?_, ?_, by decide, by decide, by decide, by decide, by decide,
    by decide, by decide, by decide, by decide, by decide, by decide,
    by rfl⟩
  · intro rates hj
    exact ratesGet_missing rates "Junior Analyst" hj
  · intro rates hm
    exact ratesGet_missing rates "Manager" hm

/-- Witness for C10: rate tables whose only positions are "Analyst Jr" and
"Mgr" miss both exact-key lookups. -/
theorem c10_exact_rate_lookup_witness :
    DashAnalysis.ratesGet [⟨"Analyst Jr", 40⟩] "Junior Analyst" = 0 ∧
    DashAnalysis.ratesGet [⟨"Mgr", 90⟩] "Manager" = 0 :=
  ⟨c10_exact_rate_lookup.1 [⟨"Analyst Jr", 40⟩] (by decide),
    c10_exact_rate_lookup.2.1 [⟨"Mgr", 90⟩] (by decide)⟩
